import Mathlib

/- Formal model of the LeGM-Lab frontend take-submission core.

   The TypeScript sources embedded here:
   - frontend/components/take-analyzer.tsx (TakeAnalyzer, handleSubmit,
     buildShareUrl, AnalysisResult chart resolution)
   - frontend/components/take-view.tsx (TakeView, its buildShareUrl,
     chart resolution) and the take permalink page (generateMetadata)
   - frontend/lib/api.ts (request, analyzeTake, API_BASE)
   - frontend/components/verdict-badge.tsx (verdictConfig, VerdictBadge)
   - frontend/lib/types.ts (TakeAnalysis and friends)

   JavaScript string primitives (trim, toUpperCase, startsWith,
   Array.join, Math.round, URLSearchParams serialization) are embedded
   as executable Lean functions over String.data character lists.
   Numbers that the code treats as real-valued (confidence) are
   modelled as rationals; Math.round is round-half-up. -/

set_option maxRecDepth 8000

/-! JavaScript string and number primitives -/

/-- Whitespace recognised by String.prototype.trim (ASCII part). -/
def isSpaceChar (c : Char) : Bool :=
  c = ' ' || c = '\t' || c = '\n' || c = '\r' || c = '\x0b' || c = '\x0c'

/-- JS String.prototype.trim: strip whitespace from both ends. -/
def jsTrim (s : String) : String :=
  ⟨((s.data.dropWhile isSpaceChar).reverse.dropWhile isSpaceChar).reverse⟩

/-- ASCII uppercase of one character (the fragment of
String.prototype.toUpperCase the program relies on). -/
def asciiUpperChar (c : Char) : Char :=
  if 'a' ≤ c ∧ c ≤ 'z' then Char.ofNat (c.toNat - 32) else c

/-- JS String.prototype.toUpperCase on ASCII strings. -/
def jsToUpper (s : String) : String := ⟨s.data.map asciiUpperChar⟩

/-- JS String.prototype.startsWith. -/
def jsStartsWith (s p : String) : Bool := p.data.isPrefixOf s.data

/-- JS Array.prototype.join with a separator. -/
def joinSep (sep : String) : List String → String
  | [] => ""
  | [s] => s
  | s :: rest => s ++ sep ++ joinSep sep rest

/-- JS Math.round: round half toward positive infinity. -/
def jsRound (q : ℚ) : ℤ := ⌊q + 1 / 2⌋

/-! Data model (frontend/lib/types.ts and component-local interfaces)

The verdict arrives as a JSON string at runtime; the TypeScript union
type is compile-time only (TakeView even casts an arbitrary string),
so verdict fields are modelled as String. -/

/-- TakeAnalysis: the analyze endpoint response record. -/
structure TakeAnalysis where
  verdict : String
  confidence : ℚ
  roast : String
  reasoning : String
  stats_used : List String
  take_id : ℤ
  chart_url : Option String
deriving DecidableEq

/-- HistoryEntry from take-analyzer.tsx: the submitted (trimmed) take
text paired with the analysis result. -/
structure HistoryEntry where
  take : String
  result : TakeAnalysis
deriving DecidableEq

/-- TakeData from take-view.tsx and the permalink page. -/
structure TakeData where
  id : ℤ
  take_text : String
  verdict : String
  confidence : ℚ
  roast : String
  reasoning : String
  stats_used : List String
  chart_url : Option String
  created_at : String
deriving DecidableEq

/-! APIGateway (frontend/lib/api.ts) -/

/-- Outcome of a fetch call, as observed by request:
either a response (status, the body readable as text or not, and the
parsed JSON body for the success path), or a transport-level rejection
with the message of the error fetch itself threw. -/
inductive FetchOutcome (α : Type) where
  | response (status : ℕ) (bodyText : Option String) (body : α)
  | netError (message : String)

/-- The failure channel of the gateway: either the Error thrown by
request on a non-ok status (its message is built from status and body),
or a propagated transport-level Error carrying only a message. -/
inductive GatewayError where
  | http (status : ℕ) (body : String)
  | transport (message : String)
deriving DecidableEq

/-- The message of the thrown JS Error: request constructs
API status colon body for HTTP failures; a transport error keeps the
generic message fetch gave it. -/
def GatewayError.message : GatewayError → String
  | .http status body => "API " ++ toString status ++ ": " ++ body
  | .transport m => m

/-- The HTTP status carried by the failure, when a response exists. -/
def GatewayError.statusCode : GatewayError → Option ℕ
  | .http status _ => some status
  | .transport _ => none

/-- request from api.ts: on res.ok (status 200..299) return the parsed
JSON body unchecked; otherwise read the body text (falling back to
"Unknown error" when reading fails) and throw; a fetch rejection
propagates as-is. -/
def request {α : Type} : FetchOutcome α → Except GatewayError α
  | .netError msg => .error (.transport msg)
  | .response status bodyText body =>
    if 200 ≤ status ∧ status ≤ 299 then .ok body
    else .error (.http status (bodyText.getD "Unknown error"))

/-- A JS catch clause receives either an Error instance or some other
thrown value; handleSubmit distinguishes the two with instanceof. -/
inductive ThrownValue where
  | error (e : GatewayError)
  | nonError
deriving DecidableEq

/-- The message handleSubmit derives in its catch clause:
err.message when err is an Error, otherwise the literal fallback. -/
def caughtMessage : ThrownValue → String
  | .error e => e.message
  | .nonError => "Analysis failed"

/-! SessionController (TakeAnalyzer in take-analyzer.tsx)

The React state of TakeAnalyzer. The async handleSubmit is split at
its await point: the dispatch phase runs synchronously up to the
analyzeTake call (returning the take text sent, or none when the guard
rejects), and the resolve phase runs when the promise settles. -/

/-- The useState fields of TakeAnalyzer. loading and currentTake
together are the pending submission; error is lastError. -/
structure SessionState where
  input : String
  loading : Bool
  currentTake : Option String
  error : Option String
  history : List HistoryEntry
deriving DecidableEq

/-- The initial state of a session: all useState initialisers. -/
def initialSessionState : SessionState :=
  { input := "", loading := false, currentTake := none,
    error := none, history := [] }

/-- Synchronous first phase of handleSubmit: trim the input; if the trimmed
text is empty or a request is loading, return unchanged and send
nothing; otherwise clear the input and the error, record the pending
take, set loading, and dispatch the trimmed text to analyzeTake. -/
def handleSubmitDispatch (s : SessionState) : SessionState × Option String :=
  let text := jsTrim s.input
  if text = "" ∨ s.loading = true then (s, none)
  else ({ s with
          input := "", currentTake := some text,
          loading := true, error := none }, some text)

/-- Continuation of handleSubmit once analyzeTake settles: on success
append the history entry; on failure record the caught message; the
finally block clears loading and currentTake in both cases. -/
def handleSubmitResolve (s : SessionState) (text : String)
    (outcome : Except ThrownValue TakeAnalysis) : SessionState :=
  match outcome with
  | .ok analysis =>
    { s with
      history := s.history ++ [⟨text, analysis⟩],
      loading := false, currentTake := none }
  | .error err =>
    { s with
      error := some (caughtMessage err),
      loading := false, currentTake := none }

/-- A user interaction trace: for each planned submission, type the
take text into the input, submit, and let the response resolve
successfully before the next interaction (the single-flight gate
forbids overlap anyway). -/
def runSubmissions (s : SessionState) (subs : List (String × TakeAnalysis)) :
    SessionState :=
  subs.foldl
    (fun st sub =>
      match handleSubmitDispatch { st with input := sub.1 } with
      | (st1, some text) => handleSubmitResolve st1 text (.ok sub.2)
      | (st1, none) => st1)
    s

/-! VerdictPresenter (frontend/components/verdict-badge.tsx) -/

/-- One presentation profile from the verdictConfig record. -/
structure VerdictStyle where
  label : String
  color : String
  bg : String
  border : String
deriving DecidableEq

/-- Own property names of Object.prototype. A plain object literal
inherits these, so a JS bracket lookup on the literal with one of
these keys returns a truthy inherited member instead of undefined. -/
def objectPrototypeKeys : List String :=
  ["constructor", "hasOwnProperty", "isPrototypeOf", "propertyIsEnumerable",
   "toLocaleString", "toString", "valueOf", "__proto__",
   "__defineGetter__", "__defineSetter__", "__lookupGetter__",
   "__lookupSetter__"]

/-- Result of the bracket lookup on the verdictConfig object literal:
an own key yields its profile object; a key inherited from
Object.prototype yields a truthy non-profile value on which the four
profile fields read as undefined (without throwing); any other key
yields undefined. -/
inductive ConfigLookup where
  | profile (style : VerdictStyle)
  | inherited
  | missing
deriving DecidableEq

/-- verdictConfig: an object literal keyed by the three verdict
strings, looked up at runtime with the raw verdict string; the lookup
consults the prototype chain before falling back to undefined. -/
def verdictConfig (verdict : String) : ConfigLookup :=
  if verdict = "trash" then
    .profile ⟨"TRASH", "text-trash", "bg-trash/10", "border-trash/20"⟩
  else if verdict = "valid" then
    .profile ⟨"VALID", "text-valid", "bg-valid/10", "border-valid/20"⟩
  else if verdict = "mid" then
    .profile ⟨"MID", "text-mid", "bg-mid/10", "border-mid/20"⟩
  else if verdict ∈ objectPrototypeKeys then .inherited
  else .missing

/-- What VerdictBadge renders: the four profile fields it reads off
config (each undefined when config is an inherited non-profile value)
plus the rounded percentage. -/
structure BadgeView where
  label : Option String
  color : Option String
  bg : Option String
  border : Option String
  pct : ℤ
deriving DecidableEq

/-- VerdictBadge: look the verdict up in verdictConfig and render
label and percent. When the lookup is undefined, reading config.bg
throws a TypeError and the render aborts: modelled as none. When the
lookup hits an inherited Object.prototype member, the field reads all
yield undefined and the badge renders with no label and no profile
classes. -/
def VerdictBadge (verdict : String) (confidence : ℚ) : Option BadgeView :=
  match verdictConfig verdict with
  | .missing => none
  | .inherited =>
    some ⟨none, none, none, none, jsRound (confidence * 100)⟩
  | .profile config =>
    some ⟨some config.label, some config.color, some config.bg,
      some config.border, jsRound (confidence * 100)⟩

/-! Base origin configuration and chart URL resolution

NEXT_PUBLIC_API_URL is modelled as an Option String; the sources apply
the nullish-coalescing fallback independently at four places. -/

/-- API_BASE in frontend/lib/api.ts line 9. -/
def apiBaseLib (env : Option String) : String :=
  env.getD "http://localhost:8000"

/-- The inline fallback expression in AnalysisResult
(take-analyzer.tsx chart img src). -/
def apiBaseAnalysisResult (env : Option String) : String :=
  env.getD "http://localhost:8000"

/-- API_BASE in take-view.tsx line 8. -/
def apiBaseTakeView (env : Option String) : String :=
  env.getD "http://localhost:8000"

/-- API_BASE in the take permalink page. -/
def apiBaseTakePage (env : Option String) : String :=
  env.getD "http://localhost:8000"

/-- The URL request fetches: API_BASE concatenated with the path. -/
def requestUrl (env : Option String) (path : String) : String :=
  apiBaseLib env ++ path

/-- The chart resolution rule as one reusable function: an absolute
URL (starting with http) is used as-is, anything else gets a prepended copy of
the base origin. -/
def resolveChartUrl (base : String) (chartUrl : String) : String :=
  if jsStartsWith chartUrl "http" then chartUrl else base ++ chartUrl

/-- The img src computed in AnalysisResult (take-analyzer.tsx). -/
def analysisResultChartSrc (env : Option String) (chartUrl : String) : String :=
  if jsStartsWith chartUrl "http" then chartUrl
  else apiBaseAnalysisResult env ++ chartUrl

/-- The img src computed in TakeView (take-view.tsx). -/
def takeViewChartSrc (env : Option String) (chartUrl : String) : String :=
  if jsStartsWith chartUrl "http" then chartUrl
  else apiBaseTakeView env ++ chartUrl

/-- The OpenGraph image URL computed in generateMetadata on the
permalink page. -/
def metadataChartImageUrl (env : Option String) (chartUrl : String) : String :=
  if jsStartsWith chartUrl "http" then chartUrl
  else apiBaseTakePage env ++ chartUrl

/-! URLSearchParams serialization (x-www-form-urlencoded)

URLSearchParams.toString percent-encodes the UTF-8 bytes of every name
and value, keeps alphanumerics and * - . _ verbatim, writes space as
a plus sign, and joins name=value pairs with ampersands.  A matching
decoder witnesses that the encoding is lossless. -/

/-- Bytes kept verbatim by the urlencoded serializer, as characters:
A-Z a-z 0-9 and * - . _ . -/
def isUnreservedFormChar (c : Char) : Bool :=
  (65 ≤ c.toNat && c.toNat ≤ 90) || (97 ≤ c.toNat && c.toNat ≤ 122) ||
    (48 ≤ c.toNat && c.toNat ≤ 57) || c.toNat == 42 || c.toNat == 45 ||
    c.toNat == 46 || c.toNat == 95

/-- Uppercase hex digit for a value below 16. -/
def hexDigitChar (n : ℕ) : Char :=
  if n < 10 then Char.ofNat (48 + n) else Char.ofNat (55 + n)

/-- Recogniser for hex digit characters. -/
def isHexChar (c : Char) : Bool :=
  (48 ≤ c.toNat && c.toNat ≤ 57) || (65 ≤ c.toNat && c.toNat ≤ 70) ||
    (97 ≤ c.toNat && c.toNat ≤ 102)

/-- Numeric value of a hex digit character. -/
def hexCharVal (c : Char) : ℕ :=
  if 48 ≤ c.toNat ∧ c.toNat ≤ 57 then c.toNat - 48
  else if 65 ≤ c.toNat ∧ c.toNat ≤ 70 then c.toNat - 55
  else if 97 ≤ c.toNat ∧ c.toNat ≤ 102 then c.toNat - 87
  else 0

/-- UTF-8 encoding of a Unicode code point, as byte values. -/
def utf8EncodeNat (n : ℕ) : List ℕ :=
  if n < 0x80 then [n]
  else if n < 0x800 then [0xC0 + n / 64, 0x80 + n % 64]
  else if n < 0x10000 then
    [0xE0 + n / 4096, 0x80 + (n / 64) % 64, 0x80 + n % 64]
  else
    [0xF0 + n / 262144, 0x80 + (n / 4096) % 64, 0x80 + (n / 64) % 64,
      0x80 + n % 64]

/-- Percent-encoding of one byte as three characters. -/
def percentEncodeByte (b : ℕ) : List Char :=
  ['%', hexDigitChar (b / 16), hexDigitChar (b % 16)]

/-- Encoding of one character under the urlencoded serializer. -/
def encodeChar (c : Char) : List Char :=
  if isUnreservedFormChar c then [c]
  else if c = ' ' then ['+']
  else (utf8EncodeNat c.toNat).flatMap percentEncodeByte

/-- The urlencoded serialization of a string (one name or value). -/
def formEncode (s : String) : String := ⟨s.data.flatMap encodeChar⟩

/-- Number of continuation bytes announced by a UTF-8 lead byte. -/
def utf8Conts (b : ℕ) : ℕ :=
  if b < 0x80 then 0 else if b < 0xE0 then 1 else if b < 0xF0 then 2 else 3

/-- Code point reassembled from a lead byte and following bytes. -/
def utf8Cp (b : ℕ) (bs : List ℕ) : ℕ :=
  if b < 0x80 then b
  else if b < 0xE0 then (b - 0xC0) * 64 + (bs.getD 0 0 - 0x80)
  else if b < 0xF0 then
    (b - 0xE0) * 4096 + (bs.getD 0 0 - 0x80) * 64 + (bs.getD 1 0 - 0x80)
  else
    (b - 0xF0) * 262144 + (bs.getD 0 0 - 0x80) * 4096 +
      (bs.getD 1 0 - 0x80) * 64 + (bs.getD 2 0 - 0x80)

/-- UTF-8 decoding of a byte sequence into code points. -/
def utf8DecodeNats : List ℕ → List ℕ
  | [] => []
  | b :: bs => utf8Cp b bs :: utf8DecodeNats (bs.drop (utf8Conts b))
termination_by l => l.length
decreasing_by
  simp only [List.length_drop, List.length_cons]
  omega

/-- Percent-decoding of an urlencoded string into a byte sequence. -/
def percentDecodeBytes : List Char → List ℕ
  | [] => []
  | c :: rest =>
    if c = '%' ∧ 2 ≤ rest.length ∧ isHexChar (rest.getD 0 'x') = true ∧
        isHexChar (rest.getD 1 'x') = true then
      (16 * hexCharVal (rest.getD 0 'x') + hexCharVal (rest.getD 1 'x')) ::
        percentDecodeBytes (rest.drop 2)
    else if c = '+' then 32 :: percentDecodeBytes rest
    else utf8EncodeNat c.toNat ++ percentDecodeBytes rest
termination_by l => l.length
decreasing_by
  all_goals simp only [List.length_drop, List.length_cons]
  all_goals omega

/-- The urlencoded decoder: percent-decode to bytes, then UTF-8 decode
to code points. -/
def formDecode (s : String) : String :=
  ⟨(utf8DecodeNats (percentDecodeBytes s.data)).map Char.ofNat⟩

/-- The query string URLSearchParams.toString produces from an ordered
list of name and value pairs. -/
def urlSearchParamsToString (params : List (String × String)) : String :=
  joinSep "&" (params.map fun p => formEncode p.1 ++ "=" ++ formEncode p.2)

/-! ShareLinkBuilder -/

/-- buildShareUrl in take-analyzer.tsx: the single argument is the
history entry; the permalink is derived from the ambient
window.location.origin, passed here as the origin parameter (the
empty string in an environment without a window). -/
def buildShareUrl (entry : HistoryEntry) (origin : String) : String :=
  let verdict := jsToUpper entry.result.verdict
  let confidence := jsRound (entry.result.confidence * 100)
  let takeUrl := origin ++ "/take/" ++ toString entry.result.take_id
  let header := "\"" ++ entry.take ++ "\" - " ++ verdict ++ " (" ++
    toString confidence ++ "%)"
  let tag := "Fact-checked by @LeGMLab"
  let text := joinSep "\n" [header, "", entry.result.roast, "", tag]
  "https://x.com/intent/post?" ++
    urlSearchParamsToString [("text", text), ("url", takeUrl)]

/-- buildShareUrl in take-view.tsx: takes the record and the page URL
explicitly. -/
def buildShareUrlTakeView (take : TakeData) (pageUrl : String) : String :=
  let verdict := jsToUpper take.verdict
  let confidence := jsRound (take.confidence * 100)
  let header := "\"" ++ take.take_text ++ "\" - " ++ verdict ++ " (" ++
    toString confidence ++ "%)"
  let tag := "Fact-checked by @LeGMLab"
  let text := joinSep "\n" [header, "", take.roast, "", tag]
  "https://x.com/intent/post?" ++
    urlSearchParamsToString [("text", text), ("url", pageUrl)]

/-- The share-intent URL as a pure function of the take text, verdict
record fields and the permalink: both component builders factor
through this function. -/
def shareIntentUrl (takeText verdictStr : String) (confidence : ℚ)
    (roast : String) (permalinkUrl : String) : String :=
  let header := "\"" ++ takeText ++ "\" - " ++ jsToUpper verdictStr ++
    " (" ++ toString (jsRound (confidence * 100)) ++ "%)"
  let text := joinSep "\n" [header, "", roast, "",
    "Fact-checked by @LeGMLab"]
  "https://x.com/intent/post?" ++
    urlSearchParamsToString [("text", text), ("url", permalinkUrl)]

/-! Helper lemmas: the urlencoded encoding is lossless -/

/-- Reconstructing a character from its own code point. -/
theorem char_ofNat_toNat (c : Char) : Char.ofNat c.toNat = c := by
  have h : Nat.isValidChar c.toNat := c.valid
  have e : Char.ofNat c.toNat = Char.ofNatAux c.toNat h := dif_pos h
  rw [e]
  apply Char.ext
  apply UInt32.ext
  simp [Char.ofNatAux, Char.toNat, UInt32.ofNat']
  rfl

/-- Code points of characters are below 0x110000. -/
theorem char_toNat_lt (c : Char) : c.toNat < 1114112 := by
  rcases c.valid with h | ⟨h1, h2⟩ <;> simp [Char.toNat] <;> omega

/-- Hex digit characters round-trip for values below 16. -/
theorem hexDigit_roundtrip :
    ∀ n, n < 16 → isHexChar (hexDigitChar n) = true ∧
      hexCharVal (hexDigitChar n) = n := by decide

/-- UTF-8 encodes code points below 0x110000 into bytes below 256. -/
theorem utf8EncodeNat_bytes_lt (n : ℕ) (hn : n < 1114112) :
    ∀ b ∈ utf8EncodeNat n, b < 256 := by
  intro b hb
  unfold utf8EncodeNat at hb
  by_cases h1 : n < 128
  · simp only [if_pos h1, List.mem_singleton] at hb
    omega
  · rw [if_neg h1] at hb
    by_cases h2 : n < 2048
    · simp only [if_pos h2, List.mem_cons, List.not_mem_nil, or_false] at hb
      rcases hb with rfl | rfl <;> omega
    · rw [if_neg h2] at hb
      by_cases h3 : n < 65536
      · simp only [if_pos h3, List.mem_cons, List.not_mem_nil, or_false] at hb
        rcases hb with rfl | rfl | rfl <;> omega
      · simp only [if_neg h3, List.mem_cons, List.not_mem_nil, or_false] at hb
        rcases hb with rfl | rfl | rfl | rfl <;> omega

/-- UTF-8 decoding undoes UTF-8 encoding at the head of a stream. -/
theorem utf8_roundtrip (n : ℕ) (hn : n < 1114112) (bs : List ℕ) :
    utf8DecodeNats (utf8EncodeNat n ++ bs) = n :: utf8DecodeNats bs := by
  unfold utf8EncodeNat
  by_cases h1 : n < 128
  · rw [if_pos h1, List.singleton_append, utf8DecodeNats]
    rw [utf8Cp, if_pos h1, utf8Conts, if_pos h1, List.drop_zero]
  · rw [if_neg h1]
    by_cases h2 : n < 2048
    · rw [if_pos h2, List.cons_append, List.cons_append, List.nil_append,
        utf8DecodeNats]
      have e1 : ¬ (0xC0 + n / 64 < 0x80) := by omega
      have e2 : 0xC0 + n / 64 < 0xE0 := by omega
      rw [utf8Cp, if_neg e1, if_pos e2, utf8Conts, if_neg e1, if_pos e2]
      simp only [List.getD_cons_zero, List.drop_succ_cons, List.drop_zero]
      congr 1
      omega
    · rw [if_neg h2]
      by_cases h3 : n < 65536
      · rw [if_pos h3, List.cons_append, List.cons_append, List.cons_append,
          List.nil_append, utf8DecodeNats]
        have e1 : ¬ (0xE0 + n / 4096 < 0x80) := by omega
        have e2 : ¬ (0xE0 + n / 4096 < 0xE0) := by omega
        have e3 : 0xE0 + n / 4096 < 0xF0 := by omega
        rw [utf8Cp, if_neg e1, if_neg e2, if_pos e3, utf8Conts, if_neg e1,
          if_neg e2, if_pos e3]
        simp only [List.getD_cons_zero, List.getD_cons_succ,
          List.drop_succ_cons, List.drop_zero]
        congr 1
        omega
      · rw [if_neg h3, List.cons_append, List.cons_append, List.cons_append,
          List.cons_append, List.nil_append, utf8DecodeNats]
        have e1 : ¬ (0xF0 + n / 262144 < 0x80) := by omega
        have e2 : ¬ (0xF0 + n / 262144 < 0xE0) := by omega
        have e3 : ¬ (0xF0 + n / 262144 < 0xF0) := by omega
        rw [utf8Cp, if_neg e1, if_neg e2, if_neg e3, utf8Conts, if_neg e1,
          if_neg e2, if_neg e3]
        simp only [List.getD_cons_zero, List.getD_cons_succ,
          List.drop_succ_cons, List.drop_zero]
        congr 1
        omega

/-- Percent-decoding a percent-encoded byte at the head of a stream. -/
theorem percentDecodeBytes_percent (b : ℕ) (hb : b < 256) (cs : List Char) :
    percentDecodeBytes (percentEncodeByte b ++ cs) =
      b :: percentDecodeBytes cs := by
  have hdiv := hexDigit_roundtrip (b / 16) (by omega)
  have hmod := hexDigit_roundtrip (b % 16) (by omega)
  rw [percentEncodeByte, List.cons_append, List.cons_append,
    List.singleton_append, percentDecodeBytes]
  rw [if_pos]
  · simp only [List.getD_cons_zero, List.getD_cons_succ,
      List.drop_succ_cons, List.drop_zero]
    rw [hdiv.2, hmod.2]
    congr 1
    omega
  · refine ⟨rfl, by simp, ?_, ?_⟩
    · simpa using hdiv.1
    · simpa using hmod.1

/-- Percent-decoding a verbatim character (neither percent nor plus). -/
theorem percentDecodeBytes_plain (c : Char) (hp : c ≠ '%') (hq : c ≠ '+')
    (cs : List Char) :
    percentDecodeBytes (c :: cs) =
      utf8EncodeNat c.toNat ++ percentDecodeBytes cs := by
  rw [percentDecodeBytes]
  rw [if_neg (by simp [hp]), if_neg hq]

/-- Percent-decoding the plus sign gives the space byte. -/
theorem percentDecodeBytes_plus (cs : List Char) :
    percentDecodeBytes ('+' :: cs) = 32 :: percentDecodeBytes cs := by
  rw [percentDecodeBytes]
  rw [if_neg (by simp), if_pos rfl]

/-- Unreserved characters are neither the percent nor the plus sign. -/
theorem unreserved_ne (c : Char) (h : isUnreservedFormChar c = true) :
    c ≠ '%' ∧ c ≠ '+' := by
  constructor <;> rintro rfl <;> exact absurd h (by decide)

/-- Decoding the encoding of one character recovers its UTF-8 bytes. -/
theorem percentDecodeBytes_encodeChar (c : Char) (cs : List Char) :
    percentDecodeBytes (encodeChar c ++ cs) =
      utf8EncodeNat c.toNat ++ percentDecodeBytes cs := by
  unfold encodeChar
  by_cases h1 : isUnreservedFormChar c = true
  · rw [if_pos h1, List.singleton_append,
      percentDecodeBytes_plain c (unreserved_ne c h1).1 (unreserved_ne c h1).2]
  · rw [if_neg h1]
    by_cases h2 : c = ' '
    · subst h2
      rw [if_pos rfl, List.singleton_append, percentDecodeBytes_plus]
      rfl
    · rw [if_neg h2]
      have hbytes := utf8EncodeNat_bytes_lt c.toNat (char_toNat_lt c)
      generalize hE : utf8EncodeNat c.toNat = bytes at hbytes ⊢
      clear hE
      induction bytes with
      | nil => simp
      | cons b bs ih =>
        have hb : b < 256 := hbytes b (List.mem_cons_self b bs)
        have hbs : ∀ x ∈ bs, x < 256 := fun x hx => hbytes x (List.mem_cons_of_mem b hx)
        simp only [List.flatMap_cons, List.append_assoc]
        rw [percentDecodeBytes_percent b hb, ih hbs]
        simp

/-- Percent-decoding undoes the character-wise encoding of a string. -/
theorem percentDecodeBytes_flatMap (cs : List Char) :
    percentDecodeBytes (cs.flatMap encodeChar) =
      cs.flatMap (fun c => utf8EncodeNat c.toNat) := by
  induction cs with
  | nil => rw [List.flatMap_nil, List.flatMap_nil, percentDecodeBytes]
  | cons c rest ih =>
    rw [List.flatMap_cons, List.flatMap_cons,
      percentDecodeBytes_encodeChar, ih]

/-- UTF-8 decoding undoes the character-wise UTF-8 encoding. -/
theorem utf8DecodeNats_flatMap (cs : List Char) :
    utf8DecodeNats (cs.flatMap fun c => utf8EncodeNat c.toNat) =
      cs.map Char.toNat := by
  induction cs with
  | nil => rw [List.flatMap_nil, List.map_nil, utf8DecodeNats]
  | cons c rest ih =>
    rw [List.flatMap_cons, utf8_roundtrip c.toNat (char_toNat_lt c), ih,
      List.map_cons]

/-- The urlencoded encoding is lossless: the decoder recovers every
string exactly. -/
theorem formDecode_formEncode (s : String) : formDecode (formEncode s) = s := by
  cases s with
  | mk data =>
    show String.mk _ = String.mk data
    rw [show (formEncode ⟨data⟩).data = data.flatMap encodeChar from rfl]
    rw [percentDecodeBytes_flatMap, utf8DecodeNats_flatMap,
      List.map_map]
    congr 1
    calc List.map (Char.ofNat ∘ Char.toNat) data
        = List.map id data := List.map_congr_left (fun c _ => char_ofNat_toNat c)
      _ = data := List.map_id data

/-! Helper lemmas: session controller -/

/-- Unfolding the dispatch phase when the guard passes. -/
theorem handleSubmitDispatch_fires (s : SessionState)
    (hne : jsTrim s.input ≠ "") (hl : s.loading = false) :
    handleSubmitDispatch s =
      ({ s with
         input := "", currentTake := some (jsTrim s.input),
         loading := true, error := none }, some (jsTrim s.input)) := by
  simp only [handleSubmitDispatch]
  rw [if_neg]
  rintro (h | h)
  · exact hne h
  · rw [hl] at h
    exact Bool.false_ne_true h

/-- History and loading flag after a trace of successful submissions,
from any non-loading start state. -/
theorem runSubmissions_history (subs : List (String × TakeAnalysis)) :
    ∀ s : SessionState, s.loading = false →
      (∀ sub ∈ subs, jsTrim sub.1 ≠ "") →
      (runSubmissions s subs).history =
        s.history ++ subs.map (fun sub => (⟨jsTrim sub.1, sub.2⟩ : HistoryEntry))
      ∧ (runSubmissions s subs).loading = false := by
  induction subs with
  | nil =>
    intro s hl _
    exact ⟨by simp [runSubmissions], by simpa [runSubmissions] using hl⟩
  | cons sub rest ih =>
    intro s hl hne
    have ht : jsTrim sub.1 ≠ "" := hne sub (List.mem_cons_self _ _)
    have hstep : runSubmissions s (sub :: rest) =
        runSubmissions
          { s with
            input := "", currentTake := none, loading := false,
            error := none,
            history := s.history ++ [⟨jsTrim sub.1, sub.2⟩] } rest := by
      simp only [runSubmissions, List.foldl_cons]
      rw [handleSubmitDispatch_fires { s with input := sub.1 } ht hl]
      rfl
    rw [hstep]
    have hrest : ∀ x ∈ rest, jsTrim x.1 ≠ "" :=
      fun x hx => hne x (List.mem_cons_of_mem _ hx)
    obtain ⟨h1, h2⟩ := ih
      { s with
        input := "", currentTake := none, loading := false,
        error := none,
        history := s.history ++ [⟨jsTrim sub.1, sub.2⟩] } rfl hrest
    refine ⟨?_, h2⟩
    rw [h1]
    simp [List.append_assoc]

/-- A concrete analysis record used to instantiate theorems. -/
def sampleAnalysis : TakeAnalysis :=
  ⟨"mid", 61 / 100, "Bro.", "Stats say mid.", ["PPG"], 7, none⟩

/-- A concrete two-submission interaction trace. -/
def sampleTrace : List (String × TakeAnalysis) :=
  [("LeBron is washed", sampleAnalysis), ("  Jokic cooks  ", sampleAnalysis)]

/-- C1: after N successful submissions the history has length N, in
issue order, each entry pairing the trimmed take text with the returned
record; dispatch never touches history and resolve only ever appends at
the end. -/
theorem history_appendOnly_ordered :
    (∀ subs : List (String × TakeAnalysis),
      (∀ sub ∈ subs, jsTrim sub.1 ≠ "") →
      (runSubmissions initialSessionState subs).history =
        subs.map (fun sub => (⟨jsTrim sub.1, sub.2⟩ : HistoryEntry))
      ∧ (runSubmissions initialSessionState subs).history.length = subs.length)
    ∧ (∀ s : SessionState, (handleSubmitDispatch s).1.history = s.history)
    ∧ (∀ (s : SessionState) (text : String)
        (outcome : Except ThrownValue TakeAnalysis),
        ∃ tail, (handleSubmitResolve s text outcome).history =
          s.history ++ tail) := by
  refine ⟨?_, ?_, ?_⟩
  · intro subs hne
    obtain ⟨h1, _⟩ := runSubmissions_history subs initialSessionState rfl hne
    rw [show initialSessionState.history = [] from rfl, List.nil_append] at h1
    exact ⟨h1, by rw [h1, List.length_map]⟩
  · intro s
    simp only [handleSubmitDispatch]
    split <;> rfl
  · intro s text outcome
    cases outcome with
    | ok analysis => exact ⟨[⟨text, analysis⟩], rfl⟩
    | error err => exact ⟨[], by simp [handleSubmitResolve]⟩

/-- C1 witness: the theorem evaluated on a concrete two-element trace. -/
theorem history_appendOnly_ordered_witness :
    (∀ sub ∈ sampleTrace, jsTrim sub.1 ≠ "")
    ∧ (runSubmissions initialSessionState sampleTrace).history =
        sampleTrace.map (fun sub => (⟨jsTrim sub.1, sub.2⟩ : HistoryEntry))
    ∧ (runSubmissions initialSessionState sampleTrace).history.length = 2 :=
  ⟨by decide,
   (history_appendOnly_ordered.1 sampleTrace (by decide)).1,
   ((history_appendOnly_ordered.1 sampleTrace (by decide)).2).trans (by decide)⟩

/-- C2: submitting with empty trimmed text or while a submission is in
flight changes no state field and issues no request. -/
theorem submit_noop_on_empty_or_inflight (s : SessionState)
    (h : jsTrim s.input = "" ∨ s.loading = true) :
    handleSubmitDispatch s = (s, none) := by
  simp only [handleSubmitDispatch]
  rw [if_pos h]

/-- C2 witness: whitespace-only input, and separately an in-flight
state, both leave the state untouched. -/
theorem submit_noop_on_empty_or_inflight_witness :
    (jsTrim "   " = "" ∨ (⟨"   ", false, none, none, []⟩ : SessionState).loading = true)
    ∧ handleSubmitDispatch ⟨"   ", false, none, none, []⟩ =
        (⟨"   ", false, none, none, []⟩, none)
    ∧ handleSubmitDispatch ⟨"LeBron is washed", true, some "x", none, []⟩ =
        (⟨"LeBron is washed", true, some "x", none, []⟩, none) :=
  ⟨Or.inl (by decide),
   submit_noop_on_empty_or_inflight _ (Or.inl (by decide)),
   submit_noop_on_empty_or_inflight _ (Or.inr rfl)⟩

/-- C3: a failed submission clears the pending fields, sets the error
message derived from the gateway error (status and body for an HTTP
failure, the transport message otherwise), and leaves history, and the
input, unchanged. -/
theorem submit_failure_error_atomicity (s : SessionState) (text : String)
    (e : GatewayError) :
    (handleSubmitResolve s text (.error (.error e))).history = s.history
    ∧ (handleSubmitResolve s text (.error (.error e))).loading = false
    ∧ (handleSubmitResolve s text (.error (.error e))).currentTake = none
    ∧ (handleSubmitResolve s text (.error (.error e))).error = some e.message
    ∧ (handleSubmitResolve s text (.error (.error e))).input = s.input
    ∧ (∀ status body, (GatewayError.http status body).message =
        "API " ++ toString status ++ ": " ++ body)
    ∧ (∀ m, (GatewayError.transport m).message = m) :=
  ⟨rfl, rfl, rfl, rfl, rfl, fun _ _ => rfl, fun _ => rfl⟩

/-- C4: with an error showing, a fresh submit with non-empty trimmed
text and no request in flight clears the error and records the pending
take at dispatch time, before any response resolves. -/
theorem submit_retry_clears_error (s : SessionState) (m : String)
    (herr : s.error = some m) (hne : jsTrim s.input ≠ "")
    (hl : s.loading = false) :
    (handleSubmitDispatch s).1.error = none
    ∧ (handleSubmitDispatch s).1.currentTake = some (jsTrim s.input)
    ∧ (handleSubmitDispatch s).1.loading = true
    ∧ (handleSubmitDispatch s).2 = some (jsTrim s.input) := by
  rw [handleSubmitDispatch_fires s hne hl]
  exact ⟨rfl, rfl, rfl, rfl⟩

/-- C4 witness: a state with a recorded error and fresh input. -/
theorem submit_retry_clears_error_witness :
    ((⟨" Luka is him ", false, none, some "API 500: boom", []⟩ :
        SessionState).error = some "API 500: boom")
    ∧ jsTrim " Luka is him " ≠ ""
    ∧ (handleSubmitDispatch
        ⟨" Luka is him ", false, none, some "API 500: boom", []⟩).1.error = none
    ∧ (handleSubmitDispatch
        ⟨" Luka is him ", false, none, some "API 500: boom", []⟩).2 =
        some (jsTrim " Luka is him ") :=
  ⟨rfl, by decide,
   (submit_retry_clears_error _ "API 500: boom" rfl (by decide) rfl).1,
   (submit_retry_clears_error _ "API 500: boom" rfl (by decide) rfl).2.2.2⟩

/-- C5: the gateway fails with status and body text on every non-2xx
status (substituting the placeholder when the body read fails), fails
with a status-free transport error when no response arrived, and on
success returns the parsed body of any shape unchecked. -/
theorem request_error_and_success_channels :
    (∀ (α : Type) (status : ℕ) (bodyText : Option String) (body : α),
      ¬ (200 ≤ status ∧ status ≤ 299) →
      request (.response status bodyText body) =
        .error (.http status (bodyText.getD "Unknown error"))
      ∧ (GatewayError.http status (bodyText.getD "Unknown error")).statusCode =
          some status)
    ∧ (∀ (α : Type) (status : ℕ) (body : α),
      ¬ (200 ≤ status ∧ status ≤ 299) →
      request (.response status none body) =
        .error (.http status "Unknown error"))
    ∧ (∀ (α : Type) (msg : String),
      request (α := α) (.netError msg) = .error (.transport msg)
      ∧ (GatewayError.transport msg).statusCode = none)
    ∧ (∀ (α : Type) (status : ℕ) (bodyText : Option String) (body : α),
      200 ≤ status → status ≤ 299 →
      request (.response status bodyText body) = .ok body) := by
  refine ⟨?_, ?_, ?_, ?_⟩
  · intro α status bodyText body h
    exact ⟨by simp only [request, if_neg h], rfl⟩
  · intro α status body h
    simp only [request, if_neg h, Option.getD]
  · intro α msg
    exact ⟨rfl, rfl⟩
  · intro α status bodyText body h1 h2
    simp only [request, if_pos (And.intro h1 h2)]

/-- C5 witness: a 404 with readable body, a 500 with unreadable body,
and a 200 success. -/
theorem request_error_and_success_channels_witness :
    (¬ (200 ≤ 404 ∧ 404 ≤ 299)
    ∧ request (.response 404 (some "not found") (0 : ℕ)) =
        .error (.http 404 "not found"))
    ∧ request (.response 500 none (0 : ℕ)) = .error (.http 500 "Unknown error")
    ∧ request (.response 200 none (37 : ℕ)) = .ok 37 :=
  ⟨⟨by decide,
    (request_error_and_success_channels.1 ℕ 404 (some "not found") 0
      (by decide)).1⟩,
   request_error_and_success_channels.2.1 ℕ 500 0 (by decide),
   request_error_and_success_channels.2.2.2 ℕ 200 none 37 (by decide)
     (by decide)⟩

/-- C8 counterexample: the verdict string toString is outside the
closed set, yet the render does not abort: the bracket lookup finds
the inherited Object.prototype member, no exception is thrown, and
the badge renders (with undefined label and profile fields) instead
of failing loudly. -/
theorem verdict_badge_prototype_counterexample :
    (("toString" : String) ≠ "trash" ∧ ("toString" : String) ≠ "valid"
      ∧ ("toString" : String) ≠ "mid")
    ∧ VerdictBadge "toString" 0 ≠ none := by
  refine ⟨⟨by decide, by decide, by decide⟩, ?_⟩
  rw [show VerdictBadge "toString" 0 =
    some ⟨none, none, none, none, jsRound (0 * 100)⟩ from rfl]
  exact Option.some_ne_none _

/-- C8 amended: each of the three closed-set verdicts renders its
upper-cased label with its own fixed profile, and the three profiles
are pairwise distinct. A verdict outside the set never yields one of
the three profiles: when it is not an inherited Object.prototype
property name the lookup is undefined, the first profile field access
throws, and the render aborts; but when it names an inherited
Object.prototype member the lookup is a truthy inherited value, the
field reads are merely undefined, and the badge renders silently with
no label and no profile classes rather than failing loudly. -/
theorem verdict_badge_closed_set (v : String) (c : ℚ) :
    (VerdictBadge "trash" c =
      some ⟨some "TRASH", some "text-trash", some "bg-trash/10",
        some "border-trash/20", jsRound (c * 100)⟩
    ∧ VerdictBadge "valid" c =
      some ⟨some "VALID", some "text-valid", some "bg-valid/10",
        some "border-valid/20", jsRound (c * 100)⟩
    ∧ VerdictBadge "mid" c =
      some ⟨some "MID", some "text-mid", some "bg-mid/10",
        some "border-mid/20", jsRound (c * 100)⟩)
    ∧ (jsToUpper "trash" = "TRASH" ∧ jsToUpper "valid" = "VALID"
      ∧ jsToUpper "mid" = "MID")
    ∧ (verdictConfig "trash" ≠ verdictConfig "valid"
      ∧ verdictConfig "valid" ≠ verdictConfig "mid"
      ∧ verdictConfig "trash" ≠ verdictConfig "mid")
    ∧ (v ≠ "trash" → v ≠ "valid" → v ≠ "mid" →
      v ∉ objectPrototypeKeys → VerdictBadge v c = none)
    ∧ (v ≠ "trash" → v ≠ "valid" → v ≠ "mid" →
      v ∈ objectPrototypeKeys →
      VerdictBadge v c = some ⟨none, none, none, none,
        jsRound (c * 100)⟩) := by
  refine ⟨⟨rfl, rfl, rfl⟩, ⟨by decide, by decide, by decide⟩,
    ⟨by decide, by decide, by decide⟩, ?_, ?_⟩
  · intro h1 h2 h3 h4
    simp only [VerdictBadge, verdictConfig, if_neg h1, if_neg h2, if_neg h3,
      if_neg h4]
  · intro h1 h2 h3 h4
    simp only [VerdictBadge, verdictConfig, if_neg h1, if_neg h2, if_neg h3,
      if_pos h4]

/-- C8 witness: a verdict with no own and no inherited key aborts; an
inherited Object.prototype key renders without a profile. -/
theorem verdict_badge_closed_set_witness :
    (("banana" : String) ≠ "trash"
      ∧ ("banana" : String) ∉ objectPrototypeKeys
      ∧ VerdictBadge "banana" 0 = none)
    ∧ (("valueOf" : String) ∈ objectPrototypeKeys
      ∧ VerdictBadge "valueOf" 0 =
        some ⟨none, none, none, none, jsRound (0 * 100)⟩) :=
  ⟨⟨by decide, by decide,
    (verdict_badge_closed_set "banana" 0).2.2.2.1 (by decide) (by decide)
      (by decide) (by decide)⟩,
   ⟨by decide,
    (verdict_badge_closed_set "valueOf" 0).2.2.2.2 (by decide) (by decide)
      (by decide) (by decide)⟩⟩

/-- C9: every chart display site applies the same resolution rule: a
chart_url starting with http is used unchanged, anything else is
given the API base origin as a leading piece; including the two concrete examples
from the specification. -/
theorem chart_url_resolution_consistent (env : Option String)
    (u base : String) :
    (analysisResultChartSrc env u = resolveChartUrl (apiBaseLib env) u
    ∧ takeViewChartSrc env u = resolveChartUrl (apiBaseLib env) u
    ∧ metadataChartImageUrl env u = resolveChartUrl (apiBaseLib env) u)
    ∧ (jsStartsWith u "http" = true → resolveChartUrl base u = u)
    ∧ (jsStartsWith u "http" = false → resolveChartUrl base u = base ++ u)
    ∧ resolveChartUrl "https://api.example.com" "/charts/42.png" =
        "https://api.example.com/charts/42.png"
    ∧ resolveChartUrl "https://api.example.com" "https://cdn.x/42.png" =
        "https://cdn.x/42.png" := by
  refine ⟨⟨rfl, rfl, rfl⟩, ?_, ?_, by decide, by decide⟩
  · intro h
    simp only [resolveChartUrl, if_pos h]
  · intro h
    simp only [resolveChartUrl, h, Bool.false_eq_true, if_false]

/-- C9 witness: the rule evaluated on an absolute and a relative URL. -/
theorem chart_url_resolution_consistent_witness :
    (jsStartsWith "https://cdn.x/42.png" "http" = true
    ∧ resolveChartUrl "https://api.example.com" "https://cdn.x/42.png" =
        "https://cdn.x/42.png")
    ∧ (jsStartsWith "/charts/42.png" "http" = false
    ∧ resolveChartUrl "https://api.example.com" "/charts/42.png" =
        "https://api.example.com" ++ "/charts/42.png") :=
  ⟨⟨by decide,
    (chart_url_resolution_consistent none "https://cdn.x/42.png"
      "https://api.example.com").2.1 (by decide)⟩,
   ⟨by decide,
    (chart_url_resolution_consistent none "/charts/42.png"
      "https://api.example.com").2.2.1 (by decide)⟩⟩

/-- C10: with NEXT_PUBLIC_API_URL absent, every consumer of the base
origin falls back to the same default, so gateway request URLs and
resolved relative chart URLs share one origin. -/
theorem api_base_shared_default (env : Option String) :
    (apiBaseLib env = apiBaseAnalysisResult env
    ∧ apiBaseLib env = apiBaseTakeView env
    ∧ apiBaseLib env = apiBaseTakePage env)
    ∧ apiBaseLib none = "http://localhost:8000"
    ∧ (∀ path, requestUrl none path = "http://localhost:8000" ++ path)
    ∧ (∀ u, jsStartsWith u "http" = false →
        analysisResultChartSrc none u = "http://localhost:8000" ++ u
        ∧ takeViewChartSrc none u = "http://localhost:8000" ++ u
        ∧ metadataChartImageUrl none u = "http://localhost:8000" ++ u) := by
  refine ⟨⟨rfl, rfl, rfl⟩, rfl, fun path => rfl, ?_⟩
  intro u h
  refine ⟨?_, ?_, ?_⟩ <;>
    simp only [analysisResultChartSrc, takeViewChartSrc,
      metadataChartImageUrl, h, Bool.false_eq_true, if_false] <;> rfl

/-- C10 witness: the default origin is applied to the analyze path and
to a relative chart URL alike. -/
theorem api_base_shared_default_witness :
    requestUrl none "/api/v1/takes/analyze" =
      "http://localhost:8000" ++ "/api/v1/takes/analyze"
    ∧ jsStartsWith "/charts/42.png" "http" = false
    ∧ takeViewChartSrc none "/charts/42.png" =
        "http://localhost:8000" ++ "/charts/42.png" :=
  ⟨(api_base_shared_default none).2.2.1 "/api/v1/takes/analyze",
   by decide,
   ((api_base_shared_default none).2.2.2 "/charts/42.png" (by decide)).2.1⟩

/-! Share URL composition lemmas -/

/-- The parameter name text encodes to itself. -/
theorem formEncode_text : formEncode "text" = "text" := by decide

/-- The parameter name url encodes to itself. -/
theorem formEncode_url : formEncode "url" = "url" := by decide

/-- The five-line share text block as the specification words it: a
header line, a blank line, the roast, a blank line, the attribution
tag. -/
def composedShareText (takeText verdictStr : String) (confidence : ℚ)
    (roast : String) : String :=
  "\"" ++ takeText ++ "\" - " ++ jsToUpper verdictStr ++ " (" ++
    toString (jsRound (confidence * 100)) ++ "%)" ++ "\n" ++ "\n" ++
    roast ++ "\n" ++ "\n" ++ "Fact-checked by @LeGMLab"

/-- Expansion of the take-analyzer buildShareUrl into the fixed
endpoint with the two encoded query parameters. -/
theorem buildShareUrl_expand (entry : HistoryEntry) (origin : String) :
    buildShareUrl entry origin =
      "https://x.com/intent/post?" ++ "text" ++ "=" ++
        formEncode (composedShareText entry.take entry.result.verdict
          entry.result.confidence entry.result.roast) ++
        "&" ++ "url" ++ "=" ++
        formEncode (origin ++ "/take/" ++ toString entry.result.take_id) := by
  simp only [buildShareUrl, urlSearchParamsToString, List.map_cons,
    List.map_nil, joinSep, composedShareText, formEncode_text, formEncode_url,
    String.append_assoc, String.empty_append, String.append_empty]

/-- Expansion of the take-view buildShareUrl into the fixed endpoint
with the two encoded query parameters. -/
theorem buildShareUrlTakeView_expand (take : TakeData) (pageUrl : String) :
    buildShareUrlTakeView take pageUrl =
      "https://x.com/intent/post?" ++ "text" ++ "=" ++
        formEncode (composedShareText take.take_text take.verdict
          take.confidence take.roast) ++
        "&" ++ "url" ++ "=" ++ formEncode pageUrl := by
  simp only [buildShareUrlTakeView, urlSearchParamsToString, List.map_cons,
    List.map_nil, joinSep, composedShareText, formEncode_text, formEncode_url,
    String.append_assoc, String.empty_append, String.append_empty]

/-- C6: both builders produce exactly the fixed intent endpoint with
query parameters text and url; the text parameter encodes the
five-line block (header with quoted take, upper-cased verdict and
rounded percent; blank line; roast; blank line; attribution tag), the
url parameter the permalink; and both parameters decode back to
exactly those strings. -/
theorem share_url_composition (entry : HistoryEntry) (origin : String)
    (take : TakeData) (pageUrl : String) :
    (buildShareUrl entry origin =
      "https://x.com/intent/post?" ++ "text" ++ "=" ++
        formEncode (composedShareText entry.take entry.result.verdict
          entry.result.confidence entry.result.roast) ++
        "&" ++ "url" ++ "=" ++
        formEncode (origin ++ "/take/" ++ toString entry.result.take_id))
    ∧ (buildShareUrlTakeView take pageUrl =
      "https://x.com/intent/post?" ++ "text" ++ "=" ++
        formEncode (composedShareText take.take_text take.verdict
          take.confidence take.roast) ++
        "&" ++ "url" ++ "=" ++ formEncode pageUrl)
    ∧ formDecode (formEncode (composedShareText entry.take
        entry.result.verdict entry.result.confidence entry.result.roast)) =
      composedShareText entry.take entry.result.verdict
        entry.result.confidence entry.result.roast
    ∧ formDecode (formEncode (origin ++ "/take/" ++
        toString entry.result.take_id)) =
      origin ++ "/take/" ++ toString entry.result.take_id
    ∧ formDecode (formEncode pageUrl) = pageUrl :=
  ⟨buildShareUrl_expand entry origin, buildShareUrlTakeView_expand take pageUrl,
   formDecode_formEncode _, formDecode_formEncode _, formDecode_formEncode _⟩

/-- A concrete history entry. -/
def sampleEntry : HistoryEntry := ⟨"KD is a bus rider", sampleAnalysis⟩

/-- C7 counterexample: the take-analyzer buildShareUrl reads the
ambient window origin, so the same entry argument yields different
output strings in two environments; it is not a function of its
declared inputs alone. -/
theorem buildShareUrl_env_dependent_counterexample :
    buildShareUrl sampleEntry "" ≠
      buildShareUrl sampleEntry "https://legm.example" := by
  intro h
  have h1 := congrArg String.length h
  rw [buildShareUrl_expand, buildShareUrl_expand] at h1
  simp only [String.length_append] at h1
  have e12 : (formEncode ("" ++ "/take/" ++
      toString sampleEntry.result.take_id)).length ≠
    (formEncode ("https://legm.example" ++ "/take/" ++
      toString sampleEntry.result.take_id)).length := by decide
  omega

/-- C7 amended: each builder output is a pure function of the take
record fields and the permalink URL; the take-view variant takes the
permalink as its second argument, while the take-analyzer variant
derives it from the ambient window origin, on which its output
therefore also depends. -/
theorem share_url_pure_in_entry_and_permalink (entry : HistoryEntry)
    (origin : String) (take : TakeData) (pageUrl : String) :
    buildShareUrl entry origin =
      shareIntentUrl entry.take entry.result.verdict entry.result.confidence
        entry.result.roast
        (origin ++ "/take/" ++ toString entry.result.take_id)
    ∧ buildShareUrlTakeView take pageUrl =
      shareIntentUrl take.take_text take.verdict take.confidence take.roast
        pageUrl :=
  ⟨rfl, rfl⟩
